import Mathlib

/-!
Verification of the FIRA query-resolution pipeline
(`src/agents/user_intent_agent.py` and `src/agents/data_sql_query_agent.py`)
against its natural-language specification.

The Python code is shallowly embedded: pure string manipulation is
reimplemented over `List Char`, JSON values are the inductive `Json`,
Python exceptions are `Except String`, and every external collaborator
(the language-completion service, the backing store, the schema-context
provider, and the `json.loads` library routine) is an explicit oracle
argument.  All definitions are total and executable.
-/

-- ==========================================================================
-- Generic helpers: Python-like string and list primitives
-- ==========================================================================

/-- Left brace character, written by code point to keep brace characters out
of literals. -/
def lbrace : Char := Char.ofNat 123

/-- Right brace character. -/
def rbrace : Char := Char.ofNat 125

/-- Left square-bracket character. -/
def lbrack : Char := Char.ofNat 91

/-- Right square-bracket character. -/
def rbrack : Char := Char.ofNat 93

/-- Apostrophe, as a one-character string, used to build the literal
user-facing messages of the Python source. -/
def apos : String := String.mk [Char.ofNat 39]

/-- Substring test on character lists: does `pat` occur inside `hay`?
Embeds the Python expression `pat in hay`. -/
def listContains (hay pat : List Char) : Bool :=
  match hay with
  | [] => pat.isEmpty
  | _ :: t => pat.isPrefixOf hay || listContains t pat

/-- Fuel-driven non-overlapping replacement, scanning left to right.
Embeds Python `str.replace` (call sites always pass a non-empty pattern). -/
def replaceFuel (pat rep : List Char) : ℕ → List Char → List Char
  | 0, l => l
  | _ + 1, [] => []
  | fuel + 1, c :: rest =>
      if pat ≠ [] ∧ pat.isPrefixOf (c :: rest) then
        rep ++ replaceFuel pat rep fuel ((c :: rest).drop pat.length)
      else
        c :: replaceFuel pat rep fuel rest

/-- Python `s.replace(pat, rep)` for non-empty `pat`. -/
def pyReplace (s pat rep : String) : String :=
  String.mk (replaceFuel pat.data rep.data s.data.length s.data)

/-- Python `s.strip()`: remove leading and trailing whitespace. -/
def pyStrip (s : String) : String :=
  String.mk (((s.data.dropWhile Char.isWhitespace).reverse.dropWhile
    Char.isWhitespace).reverse)

/-- Python `s.lower()` restricted to the ASCII range used by the keyword
lists of the intent agent. -/
def lowerChars (s : String) : List Char := s.data.map Char.toLower

/-- Index of the first occurrence of character `c`, or `none`.
Embeds Python `str.find` restricted to one-character needles (the only
form the agents use), with `none` standing for `-1`. -/
def firstIdx (c : Char) : List Char → Option ℕ
  | [] => none
  | x :: t => if x = c then some 0 else (firstIdx c t).map (· + 1)

/-- Index of the last occurrence of character `c`, or `none`.
Embeds Python `str.rfind` restricted to one-character needles. -/
def lastIdx (c : Char) (l : List Char) : Option ℕ :=
  (firstIdx c l.reverse).map (fun i => l.length - 1 - i)

/-- Python slice `s[a:b]` (character based, clamped like Python). -/
def pySlice (s : String) (a b : ℕ) : String :=
  String.mk ((s.data.drop a).take (b - a))

/-- Python slice `s[:n]`. -/
def strTake (s : String) (n : ℕ) : String := String.mk (s.data.take n)

/-- Fuel-driven non-overlapping occurrence count, scanning left to right.
Embeds Python `str.count` (call sites always pass a non-empty pattern). -/
def countOccFuel (pat : List Char) : ℕ → List Char → ℕ
  | 0, _ => 0
  | _ + 1, [] => 0
  | fuel + 1, c :: rest =>
      if pat ≠ [] ∧ pat.isPrefixOf (c :: rest) then
        1 + countOccFuel pat fuel ((c :: rest).drop pat.length)
      else
        countOccFuel pat fuel rest

/-- Python `s.count(pat)` for non-empty `pat`. -/
def pyCount (s pat : String) : ℕ := countOccFuel pat.data s.data.length s.data

/-- Helper for `wordCount`: fold over characters tracking whether the scan
is currently inside a word. -/
def countWordsAux : List Char → Bool → ℕ → ℕ
  | [], _, n => n
  | c :: t, inWord, n =>
      if c.isWhitespace then countWordsAux t false n
      else if inWord then countWordsAux t true n
      else countWordsAux t true (n + 1)

/-- Python `len(s.split())`: number of maximal whitespace-free runs. -/
def wordCount (l : List Char) : ℕ := countWordsAux l false 0

-- ==========================================================================
-- JSON values, as produced by the Python `json.loads` library call
-- ==========================================================================

/-- JSON values.  Numbers are modelled as rationals, which covers every
decimal literal a completion response can contain. -/
inductive Json where
  | null : Json
  | bool (b : Bool) : Json
  | num (q : ℚ) : Json
  | str (s : String) : Json
  | arr (xs : List Json) : Json
  | obj (fields : List (String × Json)) : Json

/-- Python truthiness (`if value:`) on JSON-shaped values. -/
def pyTruthy : Json → Bool
  | .null => false
  | .bool b => b
  | .num q => q ≠ 0
  | .str s => s ≠ ""
  | .arr l => !l.isEmpty
  | .obj f => !f.isEmpty

/-- Python `value < c` against a numeric literal: numbers and booleans
compare (a Python `bool` is an `int`), anything else raises `TypeError`. -/
def pyLtNum : Json → ℚ → Except String Bool
  | .num q, c => .ok (decide (q < c))
  | .bool b, c => .ok (decide ((if b then (1 : ℚ) else 0) < c))
  | _, _ => .error "TypeError: unsupported comparison"

/-- Python `d.get(key, default)` on a JSON object rendered as an association
list (`json.loads` yields distinct keys). -/
def vGet (fields : List (String × Json)) (key : String) (default : Json) : Json :=
  (fields.lookup key).getD default

-- ==========================================================================
-- Completion-service responses and the `json.loads` oracle
-- ==========================================================================

/-- Outcome of one `llm_call` invocation: an exception, a string response,
or a non-string response (the code guards against the latter). -/
inductive LLMResp where
  | exn (e : String) : LLMResp
  | str (s : String) : LLMResp
  | other (v : Json) : LLMResp

/-- Wrapper for `json.loads` applied to a slice delimited by a left and a
right brace.  By the JSON grammar such a parse either fails or yields an
object, so a successful non-object parse is a dead branch; it is mapped to
a parse error. -/
def loadsBrace (loads : String → Except String Json) (s : String) :
    Except String (List (String × Json)) :=
  match loads s with
  | .ok (.obj fields) => .ok fields
  | .ok _ => .error "unreachable: a brace-delimited slice parses to an object"
  | .error e => .error e

/-- The markdown-fence cleanup `resp.strip().replace(...).replace(...)`
shared by `validate_query`, `_llm_sql_gen` and `_generate_followups`. -/
def cleanedResponse (s : String) : String :=
  pyReplace (pyReplace (pyStrip s) "```json" "") "```" ""

-- ==========================================================================
-- UserIntentAgent (src/agents/user_intent_agent.py)
-- ==========================================================================

namespace UserIntentAgent

/-- The `IntentType` enumeration of the intent agent. -/
inductive IntentType where
  | DATA_SQL : IntentType
  | SEMANTIC_RAG : IntentType
  | GENERAL_CHAT : IntentType
deriving DecidableEq

/-- The pydantic `IntentResponse` model.  The `confidence` field is a bare
`float` with no range constraint in the source. -/
structure IntentResponse where
  intent : IntentType
  confidence : ℚ
  reasoning : String
  suggested_agent : String
  refined_query : Option String := none
deriving DecidableEq

/-- The `sql_keywords` list of `_keyword_fallback`. -/
def sql_keywords : List String :=
  ["spend", "budget", "cost", "total", "sum", "average", "count",
   "how much", "how many", "list", "show me", "top", "bottom",
   "compare", "breakdown", "by country", "by project", "by department",
   "headcount", "demand", "fte", "allocation", "capacity", "staffing",
   "priority", "ranking", "trend", "quarterly", "fiscal", "variance",
   "opex", "resource", "department", "manager", "lead", "region",
   "man month", "man-month", "mm"]

/-- The `rag_keywords` list of `_keyword_fallback`. -/
def rag_keywords : List String :=
  ["explain", "summarize", "what is", "what are", "policy",
   "meaning", "define", "how to", "why", "describe", "overview",
   "documentation", "guide", "process"]

/-- Data-keyword score: `sum(1 for kw in sql_keywords if kw in q)` over the
lower-cased input. -/
def sqlScore (user_query : String) : ℕ :=
  sql_keywords.countP (fun kw => listContains (lowerChars user_query) kw.data)

/-- Explanation-keyword score over the lower-cased input. -/
def ragScore (user_query : String) : ℕ :=
  rag_keywords.countP (fun kw => listContains (lowerChars user_query) kw.data)

/-- The rule-based `_keyword_fallback` of the intent agent; it is a total
function, so it can never raise. -/
def keyword_fallback (user_query : String) : IntentResponse :=
  if 2 ≤ sqlScore user_query ∨
      (1 ≤ sqlScore user_query ∧ ragScore user_query = 0 ∧
        3 < wordCount (lowerChars user_query)) then
    { intent := .DATA_SQL
      confidence := mkRat 3 4
      reasoning := "Keyword-based routing (LLM unavailable): data/SQL query detected"
      suggested_agent := "SqlAgent"
      refined_query := some user_query }
  else if 1 ≤ ragScore user_query then
    { intent := .SEMANTIC_RAG
      confidence := mkRat 7 10
      reasoning := "Keyword-based routing (LLM unavailable): semantic search detected"
      suggested_agent := "SemanticAgent" }
  else
    { intent := .GENERAL_CHAT
      confidence := mkRat 4 5
      reasoning := "Keyword-based routing (LLM unavailable): general chat"
      suggested_agent := "ChatBot" }

/-- Pydantic validation of the `intent` field: the string enum accepts
exactly its three declared values. -/
def parseIntentType : Json → Option IntentType
  | .str s =>
      if s = "DATA_SQL_QUERY" then some .DATA_SQL
      else if s = "SEMANTIC_SEARCH" then some .SEMANTIC_RAG
      else if s = "GENERAL_CHAT" then some .GENERAL_CHAT
      else none
  | _ => none

/-- Pydantic validation of the `confidence : float` field: numbers pass
through unchanged (a Python bool is an int and coerces); no range check
is declared in the model. -/
def parseConfidence : Json → Option ℚ
  | .num q => some q
  | .bool b => some (if b then 1 else 0)
  | _ => none

/-- Pydantic validation of a required `str` field. -/
def parseStrField : Json → Option String
  | .str s => some s
  | _ => none

/-- Pydantic validation of the `refined_query : Optional[str] = None`
field: missing or null becomes `none`. -/
def parseOptStr : Option Json → Option (Option String)
  | none => some none
  | some .null => some none
  | some (.str s) => some (some s)
  | some _ => none

/-- The `IntentResponse(**data)` construction: pydantic validates each
field and raises (here: `none`) on any mismatch or missing required
field. -/
def parseIntentResponse (fields : List (String × Json)) : Option IntentResponse :=
  match fields.lookup "intent", fields.lookup "confidence",
        fields.lookup "reasoning", fields.lookup "suggested_agent" with
  | some i, some c, some r, some a =>
      match parseIntentType i, parseConfidence c, parseStrField r,
            parseStrField a, parseOptStr (fields.lookup "refined_query") with
      | some it, some cq, some rs, some ag, some rq =>
          some { intent := it, confidence := cq, reasoning := rs
                 suggested_agent := ag, refined_query := rq }
      | _, _, _, _, _ => none
  | _, _, _, _ => none

/-- The `identify_intent` method.  `llm` is the single completion call it
makes; `loads` is the `json.loads` library routine.  Every exception path
in the Python `try` block lands in the keyword fallback. -/
def identify_intent (llm : LLMResp) (loads : String → Except String Json)
    (user_query : String) : IntentResponse :=
  match llm with
  | .exn _ => keyword_fallback user_query
  | .other _ => keyword_fallback user_query
  | .str s =>
      let cleaned := pyStrip (pyReplace (pyReplace s "```json" "") "```" "")
      match firstIdx lbrace cleaned.data, lastIdx rbrace cleaned.data with
      | some start, some stop =>
          match loadsBrace loads (pySlice cleaned start (stop + 1)) with
          | .error _ => keyword_fallback user_query
          | .ok fields =>
              if fields.isEmpty ∨ (fields.lookup "intent").isNone then
                keyword_fallback user_query
              else
                match parseIntentResponse fields with
                | some r => r
                | none => keyword_fallback user_query
      | _, _ => keyword_fallback user_query

/-- Observable outcome of `route_and_execute`.  The three delegated agents
are out-of-scope collaborators, so a dispatch is recorded as a tag carrying
exactly the argument the agent is invoked with; the clarification
short-circuit carries the data the Python dict is built from. -/
inductive Routed where
  | clarification (confidence : ℚ) (reasoning : String) : Routed
  | sqlAgent (q : String) : Routed
  | semanticAgent (q : String) : Routed
  | chatAgent (q : String) : Routed
deriving DecidableEq

/-- The `route_and_execute` method: classify, short-circuit when
`confidence < 0.50`, otherwise dispatch on the intent (for data queries
the refined query is used when truthy, the raw input otherwise). -/
def route_and_execute (llm : LLMResp) (loads : String → Except String Json)
    (user_query : String) : Routed :=
  let decision := identify_intent llm loads user_query
  if decision.confidence < mkRat 1 2 then
    .clarification decision.confidence decision.reasoning
  else
    match decision.intent with
    | .DATA_SQL =>
        .sqlAgent (match decision.refined_query with
          | some r => if r = "" then user_query else r
          | none => user_query)
    | .SEMANTIC_RAG => .semanticAgent user_query
    | .GENERAL_CHAT => .chatAgent user_query

/-- True when the routing outcome dispatches to one of the three agents. -/
def Routed.isDispatch : Routed → Bool
  | .clarification _ _ => false
  | _ => true

end UserIntentAgent

-- ==========================================================================
-- SQLQueryAgent (src/agents/data_sql_query_agent.py)
-- ==========================================================================

namespace SQLQueryAgent

/-- Collaborator behaviour for one `SQLQueryAgent.run` request.  Each
completion-service call site gets its own outcome (`llm_call` is not
deterministic); the repair call and the store submission of attempt `i`
are indexed by `i`.  `loads` is the deterministic `json.loads` library
routine and `schemaCtx` the outcome of the schema-context provider call
`schema_mapper.get_relevant_schema_context`. -/
structure Oracle where
  valLLM : LLMResp
  loads : String → Except String Json
  schemaCtx : Except String String
  genLLM : LLMResp
  fixLLM : ℕ → LLMResp
  db : ℕ → Json → Except String String
  analysisLLM : LLMResp
  followupLLM : LLMResp

/-- The fail-open default returned by `validate_query` when its completion
call fails or its response has no parseable JSON object. -/
def validationDefault (user_query : String) : List (String × Json) :=
  [("is_clear", .bool true),
   ("confidence", .num (mkRat 7 10)),
   ("issues", .arr []),
   ("suggestions", .arr []),
   ("clarifying_questions", .arr []),
   ("interpreted_as", .str user_query)]

/-- The `validate_query` method: one completion call, markdown-fence
cleanup, first-brace/last-brace slicing, `json.loads`; every failure path
(exception from the call, a non-string response, missing braces, parse
error) falls through to `validationDefault`. -/
def validate_query (llm : LLMResp) (loads : String → Except String Json)
    (user_query : String) : List (String × Json) :=
  match llm with
  | .exn _ => validationDefault user_query
  | .other _ => validationDefault user_query
  | .str s =>
      match firstIdx lbrace (cleanedResponse s).data,
            lastIdx rbrace (cleanedResponse s).data with
      | some start, some stop =>
          match loadsBrace loads (pySlice (cleanedResponse s) start (stop + 1)) with
          | .ok fields => fields
          | .error _ => validationDefault user_query
      | _, _ => validationDefault user_query

/-- The `_llm_sql_gen` helper, returning `(sql, explanation, chart_type)`.
All exception paths are caught inside it.  A parse that succeeds with a
non-object (impossible for the brace-free whole-response parse only when
the response is a JSON scalar) hits the generic exception branch of the
source, whose message is `"Error: " + str(e)` for the resulting attribute
error. -/
def llm_sql_gen (llm : LLMResp) (loads : String → Except String Json) :
    Json × Json × Json :=
  match llm with
  | .other _ => (.str "", .str "LLM Error: Non-string response", .str "bar")
  | .exn e => (.str "", .str ("Error: " ++ e), .str "bar")
  | .str s =>
      match loads (cleanedResponse s) with
      | .error _ => (.str "", .str "JSON Parsing Error", .str "bar")
      | .ok (.obj fields) =>
          (vGet fields "sql" (.str ""),
           vGet fields "explanation" (.str ""),
           vGet fields "chart_type" (.str "bar"))
      | .ok _ => (.str "", .str "Error: response object has no attribute get", .str "bar")

/-- The `fix_sql` method: format the repair prompt from the failing query
and its literal error (pure string formatting that cannot fail on these
templates), run `_llm_sql_gen`, keep only the `sql` component.  The outer
exception handler of the source is unreachable because `_llm_sql_gen`
catches everything. -/
def fix_sql (llm : LLMResp) (loads : String → Except String Json)
    (_sql : Json) (_explanation : Json) (_error_msg : String) : Json :=
  (llm_sql_gen llm loads).1

/-- The `execute_query` method: a falsy `sql` short-circuits to `None`
without touching the store; otherwise the store result is returned, and a
store failure re-raises the original exception (the rollback hook invoked
in between is best-effort and its own failure is swallowed). -/
def execute_query (db : Json → Except String String) (sql : Json) :
    Except String (Option String) :=
  if pyTruthy sql then
    match db sql with
    | .ok results => .ok (some results)
    | .error e => .error e
  else .ok none

/-- The `_deep_analysis` method: the completion response is returned as-is
(string or not); a raised exception falls back to the generator
explanation.  The prompt built from the other arguments feeds only the
completion call. -/
def deep_analysis (llm : LLMResp) (_user_input : String) (_sql : Json)
    (explanation : Json) (_results : Option String) : Json :=
  match llm with
  | .exn _ => explanation
  | .str s => .str s
  | .other v => v

/-- The `_generate_followups` method: bracket slicing plus `json.loads`,
first three entries kept; every failure path yields the empty list.  A
successful non-list parse of a bracket-delimited slice is dead by the JSON
grammar. -/
def generate_followups (llm : LLMResp) (loads : String → Except String Json)
    (_user_input : String) (_results : Option String) : List Json :=
  match llm with
  | .exn _ => []
  | .other _ => []
  | .str s =>
      match firstIdx lbrack (cleanedResponse s).data,
            lastIdx rbrack (cleanedResponse s).data with
      | some start, some stop =>
          match loads (pySlice (cleanedResponse s) start (stop + 1)) with
          | .ok (.arr l) => l.take 3
          | _ => []
      | _, _ => []

/-- The `_check_data_quality` method: a pure, local heuristic over the
string rendering of the result set (`None` results short-circuit). -/
def check_data_quality (results : Option String) : List String :=
  match results with
  | none =>
      ["No results returned — the query may be too restrictive or the table may be empty."]
  | some rs =>
      (if listContains rs.data "None".data ||
          listContains (lowerChars rs) "null".data then
        ["Some values contain NULL/None — data may be incomplete for certain records."]
      else []) ++
      (if pyCount rs "\n" ≤ 2 then
        ["Very few rows returned — consider broadening your query filters."]
      else []) ++
      (if listContains rs.data "0.00".data then
        (if 3 < pyCount rs "0.00" then
          ["Multiple zero values detected (" ++ toString (pyCount rs "0.00") ++
            " instances) — verify data completeness."]
        else [])
      else []) ++
      (if listContains rs.data "-".data &&
          (["spend", "budget", "cost"].any
            (fun kw => listContains (lowerChars rs) kw.data)) then
        ["Negative financial values detected — this may indicate credits, reversals, or data issues."]
      else [])

/-- The clarification guard of `run`, with Python evaluation order:
`not validation.get("is_clear", True)` first, then the
`validation.get("confidence", 1.0) < 0.5` comparison (which raises
`TypeError` on a non-numeric value), then truthiness of
`validation.get("clarifying_questions")`. -/
def clarGuard (v : List (String × Json)) : Except String Bool :=
  if pyTruthy (vGet v "is_clear" (.bool true)) then .ok false
  else
    match pyLtNum (vGet v "confidence" (.num 1)) (mkRat 1 2) with
    | .error e => .error e
    | .ok lt => .ok (lt && pyTruthy (vGet v "clarifying_questions" .null))

/-- Literal clarification message of `run`. -/
def clarificationMessage : String :=
  "I" ++ apos ++ "d like to clarify your request to give you the most accurate results."

/-- Literal generation-failure message of `run`. -/
def generationFailMessage : String :=
  "I wasn" ++ apos ++ "t able to generate a SQL query for that request. Could you rephrase it?"

/-- The three generic retry hints used as the `dict.get` default for the
terminal error envelope. -/
def defaultHints : List Json :=
  [.str "Try rephrasing your question with specific column names",
   .str ("Specify the time period (e.g., " ++ apos ++ "in FY2025" ++ apos ++ ")"),
   .str "Mention the exact table: OpEx spend, resource demand, or project priority"]

/-- Fixed part of the terminal error message of `run`. -/
def errPrefix (retry_limit : ℕ) : String :=
  "I tried " ++ toString retry_limit ++
    " times but couldn" ++ apos ++ "t execute the query successfully. Last error: "

/-- Terminal error message of `run`: the fixed part followed by the last
error truncated to 200 characters (`last_error[:200]`). -/
def errMessage (retry_limit : ℕ) (last_error : String) : String :=
  errPrefix retry_limit ++ strTake last_error 200

/-- The status-discriminated response envelope returned by `run`, with the
payload fields of each status. -/
inductive Envelope where
  | clarification (message : String)
      (interpreted_as issues clarifying_questions suggestions : Json) : Envelope
  | error (message : String) (last_sql : Option Json) (suggestions : Json) : Envelope
  | success (sql : Json) (analysis : Json) (results : Option String)
      (chart_type : Json) (followup_suggestions : List Json)
      (data_quality_warnings : List String)
      (query_interpretation validation_suggestions : Json) : Envelope

/-- Result of `run` together with a ghost trace: `res` is the returned
envelope (or an uncaught exception), `execs` records every `execute_query`
call with the query value passed and the outcome observed, and `repairs`
records every `fix_sql` call with the exact failing query value and the
literal error message passed to it. -/
structure RunOut where
  res : Except String Envelope
  execs : List (Json × Except String (Option String))
  repairs : List (Json × String)

/-- The retry loop of `run` (`while current_try < retry_limit`).  The
remaining budget `fuel` equals `retry_limit - current_try`; `idx` is
`current_try`.  On failure the error is captured, `fix_sql` is called once
with the failing query and the literal error, and the loop continues on
the repaired query; exhausting the budget yields the terminal error
envelope built from the last attempt. -/
def runLoop (o : Oracle) (user_input : String) (v : List (String × Json))
    (explanation chart : Json) (retry_limit : ℕ) :
    Json → ℕ → ℕ → String → RunOut
  | sql, 0, _idx, last_error =>
      ⟨.ok (.error (errMessage retry_limit last_error) (some sql)
          (vGet v "suggestions" (.arr defaultHints))), [], []⟩
  | sql, fuel + 1, idx, _last_error =>
      match execute_query (o.db idx) sql with
      | .error e =>
          let newSql := fix_sql (o.fixLLM idx) o.loads sql explanation e
          let rest := runLoop o user_input v explanation chart retry_limit
            newSql fuel (idx + 1) e
          ⟨rest.res, (sql, .error e) :: rest.execs, (sql, e) :: rest.repairs⟩
      | .ok results =>
          ⟨.ok (.success sql
              (deep_analysis o.analysisLLM user_input sql explanation results)
              results chart
              (generate_followups o.followupLLM o.loads user_input results)
              (check_data_quality results)
              (vGet v "interpreted_as" (.str ""))
              (vGet v "suggestions" (.arr []))),
            [(sql, .ok results)], []⟩

/-- The `run` method: validate, short-circuit to clarification, generate
SQL (the schema-context provider call inside `get_sql` is not guarded by
any exception handler), fail fast on a falsy generated query, then enter
the retry loop. -/
def run (o : Oracle) (user_input : String) (retry_limit : ℕ) : RunOut :=
  let v := validate_query o.valLLM o.loads user_input
  match clarGuard v with
  | .error e => ⟨.error e, [], []⟩
  | .ok true =>
      ⟨.ok (.clarification clarificationMessage
          (vGet v "interpreted_as" (.str ""))
          (vGet v "issues" (.arr []))
          (vGet v "clarifying_questions" (.arr []))
          (vGet v "suggestions" (.arr []))), [], []⟩
  | .ok false =>
      match o.schemaCtx with
      | .error e => ⟨.error e, [], []⟩
      | .ok _ctx =>
          let g := llm_sql_gen o.genLLM o.loads
          if pyTruthy g.1 then
            runLoop o user_input v g.2.1 g.2.2 retry_limit g.1 retry_limit 0 ""
          else
            ⟨.ok (.error generationFailMessage none
                (vGet v "suggestions" (.arr []))), [], []⟩

/-- The `status` discriminator of a pipeline outcome; an uncaught exception
has no envelope and hence no status. -/
def statusOf : Except String Envelope → String
  | .ok (.clarification _ _ _ _ _) => "clarification_needed"
  | .ok (.error _ _ _) => "error"
  | .ok (.success _ _ _ _ _ _ _ _) => "success"
  | .error _ => "uncaught_exception"

end SQLQueryAgent

-- ==========================================================================
-- Concrete collaborator behaviours used by counterexamples and witnesses
-- ==========================================================================

namespace SQLQueryAgent

/-- Baseline collaborator behaviour: every completion call raises, the
store rejects every query, the schema-context provider returns normally,
and no string parses as JSON. -/
def quietOracle : Oracle :=
  { valLLM := .exn "llm unavailable"
    loads := fun _ => .error "parse error"
    schemaCtx := .ok ""
    genLLM := .exn "llm unavailable"
    fixLLM := fun _ => .exn "llm unavailable"
    db := fun _ _ => .error "db rejected the query"
    analysisLLM := .exn "llm unavailable"
    followupLLM := .exn "llm unavailable" }

/-- A `json.loads` behaviour that parses the one-field generation response
`g` and nothing else. -/
def demoLoadsGen : String → Except String Json := fun s =>
  if s = "g" then
    .ok (.obj [("sql", .str "SELECT 1"), ("explanation", .str "exp"),
               ("chart_type", .str "bar")])
  else .error "parse error"

/-- Extract the repair-call data from a recorded execution: a failed
execution contributes its query value and literal error, a successful one
contributes nothing. -/
def failOf : Json × Except String (Option String) → Option (Json × String)
  | (s, .error e) => some (s, e)
  | (_, .ok _) => none

/-- Did a recorded execution raise? -/
def isFailedExec : Except String (Option String) → Bool
  | .error _ => true
  | .ok _ => false

/-- Error text of the last recorded execution (empty if there is none or
it succeeded). -/
def lastErrOf (l : List (Json × Except String (Option String))) : String :=
  match l.getLast? with
  | some (_, .error e) => e
  | _ => ""

/-- Query value of the last recorded execution. -/
def lastSqlOf (l : List (Json × Except String (Option String))) : Json :=
  match l.getLast? with
  | some (s, _) => s
  | none => .null

/-- The hypothesis of the fail-open claim: the completion call of
`validate_query` raised or returned a non-string, or its cleaned response
has no brace-delimited slice, or that slice does not parse as a JSON
object. -/
def validationUnparseable (llm : LLMResp)
    (loads : String → Except String Json) : Prop :=
  match llm with
  | .exn _ => True
  | .other _ => True
  | .str s =>
      match firstIdx lbrace (cleanedResponse s).data,
            lastIdx rbrace (cleanedResponse s).data with
      | some start, some stop =>
          ∃ e, loadsBrace loads (pySlice (cleanedResponse s) start (stop + 1)) =
            .error e
      | _, _ => True

/-- A `json.loads` behaviour returning a validation verdict that is clear
but has low confidence and a pending clarifying question. -/
def demoLoadsClarTrue : String → Except String Json := fun _ =>
  .ok (.obj [("is_clear", .bool true),
             ("confidence", .num (mkRat 3 10)),
             ("clarifying_questions", .arr [.str "Which fiscal year?"])])

/-- A `json.loads` behaviour returning a validation verdict that is
unclear, has low confidence and a pending clarifying question. -/
def demoLoadsClarFalse : String → Except String Json := fun _ =>
  .ok (.obj [("is_clear", .bool false),
             ("confidence", .num (mkRat 3 10)),
             ("clarifying_questions", .arr [.str "Which fiscal year?"])])

/-- Collaborators whose validation verdict is clear with low confidence
and a clarifying question. -/
def demoClarTrueOracle : Oracle :=
  { quietOracle with valLLM := .str "\x7b\x7d", loads := demoLoadsClarTrue }

/-- Collaborators whose validation verdict is unclear with low confidence
and a clarifying question. -/
def demoClarFalseOracle : Oracle :=
  { quietOracle with valLLM := .str "\x7b\x7d", loads := demoLoadsClarFalse }

/-- Collaborators where generation succeeds, the store rejects the query,
and the repair completion call raises — so repair yields an empty query. -/
def demoEmptyRepairOracle : Oracle :=
  { quietOracle with genLLM := .str "g", loads := demoLoadsGen }

/-- Collaborators where generation and every repair yield the same query
and the store rejects every submission. -/
def demoAllFailOracle : Oracle :=
  { quietOracle with
      genLLM := .str "g"
      loads := demoLoadsGen
      fixLLM := fun _ => .str "g" }

/-- Collaborators whose schema-context provider raises. -/
def demoSchemaCrashOracle : Oracle :=
  { quietOracle with schemaCtx := .error "schema provider crashed" }

end SQLQueryAgent

namespace UserIntentAgent

/-- A `json.loads` behaviour returning a classification whose confidence
is 1.5; pydantic accepts it because `confidence : float` carries no range
constraint. -/
def demoIntentLoads : String → Except String Json := fun _ =>
  .ok (.obj [("intent", .str "DATA_SQL_QUERY"),
             ("confidence", .num (mkRat 3 2)),
             ("reasoning", .str "parsed"),
             ("suggested_agent", .str "SqlAgent")])

end UserIntentAgent

-- ==========================================================================
-- Theorems
-- ==========================================================================

open UserIntentAgent SQLQueryAgent

/-- C2.  The keyword fallback is a total function of the input text: it
returns DATA_QUERY with confidence exactly 0.75 and the verbatim input as
`refined_query` when the case-insensitive data score is at least 2 or (data
score at least 1, explanation score 0, and more than 3 whitespace-separated
words); otherwise SEMANTIC_SEARCH with confidence exactly 0.70 when the
explanation score is at least 1; otherwise GENERAL_CHAT with confidence
exactly 0.80.  Being total, it never raises. -/
theorem c2_keyword_fallback_classification (text : String) :
    ((2 ≤ sqlScore text ∨
        (1 ≤ sqlScore text ∧ ragScore text = 0 ∧ 3 < wordCount (lowerChars text))) →
      keyword_fallback text =
        { intent := .DATA_SQL, confidence := mkRat 3 4,
          reasoning := "Keyword-based routing (LLM unavailable): data/SQL query detected",
          suggested_agent := "SqlAgent", refined_query := some text }) ∧
    (¬ (2 ≤ sqlScore text ∨
        (1 ≤ sqlScore text ∧ ragScore text = 0 ∧ 3 < wordCount (lowerChars text))) →
      1 ≤ ragScore text →
      keyword_fallback text =
        { intent := .SEMANTIC_RAG, confidence := mkRat 7 10,
          reasoning := "Keyword-based routing (LLM unavailable): semantic search detected",
          suggested_agent := "SemanticAgent", refined_query := none }) ∧
    (¬ (2 ≤ sqlScore text ∨
        (1 ≤ sqlScore text ∧ ragScore text = 0 ∧ 3 < wordCount (lowerChars text))) →
      ragScore text = 0 →
      keyword_fallback text =
        { intent := .GENERAL_CHAT, confidence := mkRat 4 5,
          reasoning := "Keyword-based routing (LLM unavailable): general chat",
          suggested_agent := "ChatBot", refined_query := none }) := by
  refine ⟨fun h => ?_, fun h hr => ?_, fun h hr => ?_⟩
  · unfold keyword_fallback
    rw [if_pos h]
  · unfold keyword_fallback
    rw [if_neg h, if_pos hr]
  · unfold keyword_fallback
    rw [if_neg h, if_neg (by omega : ¬ 1 ≤ ragScore text)]

/-- C2 witness: the concrete scenario input is classified DATA_QUERY with
confidence 0.75 and the verbatim input as refined query. -/
theorem c2_witness :
    keyword_fallback "total spend by project in 2025" =
      { intent := .DATA_SQL, confidence := mkRat 3 4,
        reasoning := "Keyword-based routing (LLM unavailable): data/SQL query detected",
        suggested_agent := "SqlAgent",
        refined_query := some "total spend by project in 2025" } :=
  (c2_keyword_fallback_classification "total spend by project in 2025").1
    (Or.inl (by decide))

/-- C8 counterexample: a completion response carrying `confidence: 1.5`
passes pydantic validation unchanged, so `identify_intent` returns a
confidence outside `[0,1]`, refuting the claim that all confidence values
held by the pipeline lie in `[0,1]`. -/
theorem c8_counterexample :
    (identify_intent (.str "\x7b\x7d") demoIntentLoads "total spend").confidence =
      mkRat 3 2 ∧
    ¬ (identify_intent (.str "\x7b\x7d") demoIntentLoads "total spend").confidence ≤
      mkRat 1 1 :=
  ⟨rfl, by decide⟩

/-- C8 amended: the confidence constants the pipeline itself produces — the
three keyword-fallback values and the fail-open validation default 0.7 —
all lie in `[0,1]`; confidences parsed from completion-service output are
passed through without any range check. -/
theorem c8_default_confidences_bounded (q : String) :
    mkRat 0 1 ≤ (keyword_fallback q).confidence ∧
    (keyword_fallback q).confidence ≤ mkRat 1 1 ∧
    vGet (validationDefault q) "confidence" .null = .num (mkRat 7 10) ∧
    mkRat 0 1 ≤ mkRat 7 10 ∧ mkRat 7 10 ≤ mkRat 1 1 := by
  refine ⟨?_, ?_, rfl, by decide, by decide⟩
  · unfold keyword_fallback
    split
    · exact (by decide : mkRat 0 1 ≤ mkRat 3 4)
    · split
      · exact (by decide : mkRat 0 1 ≤ mkRat 7 10)
      · exact (by decide : mkRat 0 1 ≤ mkRat 4 5)
  · unfold keyword_fallback
    split
    · exact (by decide : mkRat 3 4 ≤ mkRat 1 1)
    · split
      · exact (by decide : mkRat 7 10 ≤ mkRat 1 1)
      · exact (by decide : mkRat 4 5 ≤ mkRat 1 1)

/-- C10.  Every confidence the keyword fallback can return is one of 0.75,
0.70, 0.80 — hence at least 0.5 — and therefore whenever intent
classification resolves to the keyword fallback, `route_and_execute`
cannot take its low-confidence clarification branch: the request is
dispatched to one of the three agents. -/
theorem c10_fallback_always_dispatches :
    (∀ q : String,
      ((keyword_fallback q).confidence = mkRat 3 4 ∨
        (keyword_fallback q).confidence = mkRat 7 10 ∨
        (keyword_fallback q).confidence = mkRat 4 5) ∧
      mkRat 1 2 ≤ (keyword_fallback q).confidence) ∧
    (∀ (llm : LLMResp) (loads : String → Except String Json) (q : String),
      identify_intent llm loads q = keyword_fallback q →
      (route_and_execute llm loads q).isDispatch = true) := by
  have hpart1 : ∀ q : String,
      ((keyword_fallback q).confidence = mkRat 3 4 ∨
        (keyword_fallback q).confidence = mkRat 7 10 ∨
        (keyword_fallback q).confidence = mkRat 4 5) ∧
      mkRat 1 2 ≤ (keyword_fallback q).confidence := by
    intro q
    unfold keyword_fallback
    split
    · exact ⟨Or.inl rfl, (by decide : mkRat 1 2 ≤ mkRat 3 4)⟩
    · split
      · exact ⟨Or.inr (Or.inl rfl), (by decide : mkRat 1 2 ≤ mkRat 7 10)⟩
      · exact ⟨Or.inr (Or.inr rfl), (by decide : mkRat 1 2 ≤ mkRat 4 5)⟩
  refine ⟨hpart1, fun llm loads q hid => ?_⟩
  simp only [route_and_execute]
  rw [hid, if_neg (not_lt.mpr (hpart1 q).2)]
  cases hI : (keyword_fallback q).intent <;> simp [hI, Routed.isDispatch]

/-- C10 witness: with a raising completion service the classifier falls
back to keywords and the request is dispatched. -/
theorem c10_witness :
    (route_and_execute (.exn "llm down") (fun _ => .error "parse error")
      "hi").isDispatch = true :=
  c10_fallback_always_dispatches.2 (.exn "llm down")
    (fun _ => .error "parse error") "hi" rfl

/-- Helper: the retry loop makes at most `fuel` execution calls and its
repair trace is exactly the failed executions, each paired with the
literal error it raised. -/
theorem runLoop_trace (o : Oracle) (ui : String) (v : List (String × Json))
    (expl chart : Json) (rl : ℕ) :
    ∀ (fuel : ℕ) (sql : Json) (idx : ℕ) (lastErr : String),
      ((runLoop o ui v expl chart rl sql fuel idx lastErr).execs).length ≤ fuel ∧
      (runLoop o ui v expl chart rl sql fuel idx lastErr).repairs =
        ((runLoop o ui v expl chart rl sql fuel idx lastErr).execs).filterMap
          failOf := by
  intro fuel
  induction fuel with
  | zero =>
      intro sql idx lastErr
      simp [runLoop]
  | succ n ih =>
      intro sql idx lastErr
      cases hE : execute_query (o.db idx) sql with
      | ok r => simp [runLoop, hE, failOf]
      | error e =>
          obtain ⟨h1, h2⟩ := ih (fix_sql (o.fixLLM idx) o.loads sql expl e)
            (idx + 1) e
          refine ⟨?_, ?_⟩
          · simp only [runLoop, hE]
            simpa using h1
          · simp only [runLoop, hE, List.filterMap_cons, failOf]
            simpa using h2

/-- C1.  For every request, every collaborator behaviour and every
`retry_limit ≥ 0`: `run` calls `execute_query` at most `retry_limit`
times, and its repair trace (the `fix_sql` calls) is exactly one entry
per failed execution, carrying the exact query value that just failed and
the literal error it raised.  Termination for every behaviour is witnessed
by `run` being a total function. -/
theorem c1_retry_budget_and_repairs (o : Oracle) (ui : String) (rl : ℕ) :
    ((run o ui rl).execs).length ≤ rl ∧
    (run o ui rl).repairs = ((run o ui rl).execs).filterMap failOf := by
  cases hcg : clarGuard (validate_query o.valLLM o.loads ui) with
  | error e => simp [run, hcg]
  | ok b =>
      cases b with
      | true => simp [run, hcg]
      | false =>
          cases hs : o.schemaCtx with
          | error e => simp [run, hcg, hs]
          | ok ctx =>
              by_cases hq : pyTruthy (llm_sql_gen o.genLLM o.loads).1
              · simpa [run, hcg, hs, hq] using
                  runLoop_trace o ui (validate_query o.valLLM o.loads ui)
                    (llm_sql_gen o.genLLM o.loads).2.1
                    (llm_sql_gen o.genLLM o.loads).2.2 rl rl
                    (llm_sql_gen o.genLLM o.loads).1 0 ""
              · simp [run, hcg, hs, hq]

/-- Helper: the retry loop only ever produces an error or a success
envelope — never a clarification and never an uncaught exception. -/
theorem runLoop_status (o : Oracle) (ui : String) (v : List (String × Json))
    (expl chart : Json) (rl : ℕ) :
    ∀ (fuel : ℕ) (sql : Json) (idx : ℕ) (lastErr : String),
      statusOf (runLoop o ui v expl chart rl sql fuel idx lastErr).res = "error" ∨
      statusOf (runLoop o ui v expl chart rl sql fuel idx lastErr).res =
        "success" := by
  intro fuel
  induction fuel with
  | zero =>
      intro sql idx lastErr
      left
      simp [runLoop, statusOf]
  | succ n ih =>
      intro sql idx lastErr
      cases hE : execute_query (o.db idx) sql with
      | ok r =>
          right
          simp [runLoop, hE, statusOf]
      | error e =>
          simpa [runLoop, hE] using
            ih (fix_sql (o.fixLLM idx) o.loads sql expl e) (idx + 1) e

/-- C3 counterexample: a reachable validation verdict with confidence 0.3
(below 0.5) and a non-empty clarifying-question list, but `is_clear` true;
the claim requires a clarification response, yet the pipeline proceeds and
returns an error envelope instead. -/
theorem c3_counterexample :
    pyLtNum (vGet (validate_query demoClarTrueOracle.valLLM
        demoClarTrueOracle.loads "spend") "confidence" (.num 1)) (mkRat 1 2) =
      .ok true ∧
    pyTruthy (vGet (validate_query demoClarTrueOracle.valLLM
        demoClarTrueOracle.loads "spend") "clarifying_questions" .null) = true ∧
    statusOf (run demoClarTrueOracle "spend" 3).res = "error" ∧
    statusOf (run demoClarTrueOracle "spend" 3).res ≠ "clarification_needed" :=
  ⟨rfl, rfl, rfl, by decide⟩

/-- C3, amended: the short-circuit additionally requires `is_clear` to be
falsy.  Whenever the validation verdict has falsy `is_clear`, confidence
below 0.5 and truthy `clarifying_questions`, `run` returns the
clarification envelope and makes zero execution calls; and conversely any
clarification response is produced with an empty execution trace. -/
theorem c3_clarification_gate (o : Oracle) (ui : String) (rl : ℕ)
    (h1 : pyTruthy (vGet (validate_query o.valLLM o.loads ui) "is_clear"
      (.bool true)) = false)
    (h2 : pyLtNum (vGet (validate_query o.valLLM o.loads ui) "confidence"
      (.num 1)) (mkRat 1 2) = .ok true)
    (h3 : pyTruthy (vGet (validate_query o.valLLM o.loads ui)
      "clarifying_questions" .null) = true) :
    ((run o ui rl).execs = [] ∧
      statusOf (run o ui rl).res = "clarification_needed") ∧
    (∀ (o2 : Oracle) (ui2 : String) (rl2 : ℕ),
      statusOf (run o2 ui2 rl2).res = "clarification_needed" →
      (run o2 ui2 rl2).execs = []) := by
  have hcg : clarGuard (validate_query o.valLLM o.loads ui) = .ok true := by
    unfold clarGuard
    rw [h1, h2]
    simp [h3]
  refine ⟨by simp [run, hcg, statusOf], ?_⟩
  intro o2 ui2 rl2 hst
  cases hcg2 : clarGuard (validate_query o2.valLLM o2.loads ui2) with
  | error e =>
      rw [run] at hst
      simp only [hcg2] at hst
      simp [statusOf] at hst
  | ok b =>
      cases b with
      | true => simp [run, hcg2]
      | false =>
          cases hs : o2.schemaCtx with
          | error e =>
              rw [run] at hst
              simp only [hcg2, hs] at hst
              simp [statusOf] at hst
          | ok ctx =>
              by_cases hq : pyTruthy (llm_sql_gen o2.genLLM o2.loads).1
              · exfalso
                rw [run] at hst
                simp only [hcg2, hs, hq, if_true] at hst
                rcases runLoop_status o2 ui2
                    (validate_query o2.valLLM o2.loads ui2)
                    (llm_sql_gen o2.genLLM o2.loads).2.1
                    (llm_sql_gen o2.genLLM o2.loads).2.2 rl2 rl2
                    (llm_sql_gen o2.genLLM o2.loads).1 0 "" with h | h
                · rw [hst] at h
                  exact absurd h (by decide)
                · rw [hst] at h
                  exact absurd h (by decide)
              · rw [run] at hst
                simp only [hcg2, hs, hq, if_false] at hst
                simp [run, hcg2, hs, hq]

/-- C3 witness: a concrete verdict that is unclear, has confidence 0.3 and
one clarifying question short-circuits to clarification with zero
executions. -/
theorem c3_witness :
    (run demoClarFalseOracle "spend" 3).execs = [] ∧
    statusOf (run demoClarFalseOracle "spend" 3).res = "clarification_needed" :=
  (c3_clarification_gate demoClarFalseOracle "spend" 3 rfl rfl rfl).1

/-- C4 counterexample: the single execution failure is repaired to an
empty query (the repair completion call raised), yet the pipeline does
not treat the repaired attempt as failing — the next `execute_query`
short-circuits to `None` and `run` reports `status = success`, which the
claim forbids. -/
theorem c4_counterexample :
    (run demoEmptyRepairOracle "spend" 3).repairs =
      [(.str "SELECT 1", "db rejected the query")] ∧
    fix_sql (demoEmptyRepairOracle.fixLLM 0) demoEmptyRepairOracle.loads
      (.str "SELECT 1") (.str "exp") "db rejected the query" = .str "" ∧
    statusOf (run demoEmptyRepairOracle "spend" 3).res = "success" ∧
    (run demoEmptyRepairOracle "spend" 3).execs =
      [(.str "SELECT 1", .error "db rejected the query"),
       (.str "", .ok none)] :=
  ⟨rfl, rfl, rfl, rfl⟩

/-- C4, amended: when repair yields a falsy (empty) query while budget
remains, the failed attempt has already been counted against the budget,
but the following iteration does not fail: `execute_query` short-circuits
to `None` without a store submission and the loop returns a success
envelope with empty results instead of continuing toward the terminal
error. -/
theorem c4_empty_repair_reports_success (o : Oracle) (ui : String)
    (v : List (String × Json)) (expl chart : Json) (rl : ℕ)
    (sql : Json) (fuel idx : ℕ) (lastErr : String)
    (h : pyTruthy sql = false) :
    runLoop o ui v expl chart rl sql (fuel + 1) idx lastErr =
      ⟨.ok (.success sql (deep_analysis o.analysisLLM ui sql expl none) none
          chart (generate_followups o.followupLLM o.loads ui none)
          (check_data_quality none)
          (vGet v "interpreted_as" (.str ""))
          (vGet v "suggestions" (.arr []))),
        [(sql, .ok none)], []⟩ := by
  simp [runLoop, execute_query, h]

/-- C4 witness: a falsy query with budget remaining yields the success
envelope with `None` results and no store submission. -/
theorem c4_witness :
    runLoop quietOracle "spend" (validationDefault "spend") (.str "exp")
      (.str "bar") 3 (.str "") 2 1 "boom" =
      ⟨.ok (.success (.str "")
          (deep_analysis quietOracle.analysisLLM "spend" (.str "") (.str "exp")
            none)
          none (.str "bar")
          (generate_followups quietOracle.followupLLM quietOracle.loads "spend"
            none)
          (check_data_quality none)
          (vGet (validationDefault "spend") "interpreted_as" (.str ""))
          (vGet (validationDefault "spend") "suggestions" (.arr []))),
        [(.str "", .ok none)], []⟩ :=
  c4_empty_repair_reports_success quietOracle "spend"
    (validationDefault "spend") (.str "exp") (.str "bar") 3 (.str "") 1 1
    "boom" rfl

/-- C6.  Whenever the pipeline reaches generation (no clarification
short-circuit, schema-context call returns) and the generated `query_text`
is falsy — in particular empty — `run` returns the generation-failure
error envelope, makes zero execution calls and zero repair calls. -/
theorem c6_empty_generation_terminal (o : Oracle) (ui : String) (rl : ℕ)
    (ctx : String)
    (hclar : clarGuard (validate_query o.valLLM o.loads ui) = .ok false)
    (hschema : o.schemaCtx = .ok ctx)
    (hsql : pyTruthy (llm_sql_gen o.genLLM o.loads).1 = false) :
    run o ui rl =
      ⟨.ok (.error generationFailMessage none
          (vGet (validate_query o.valLLM o.loads ui) "suggestions" (.arr []))),
        [], []⟩ := by
  simp [run, hclar, hschema, hsql]

/-- C6 witness: with a raising generation completion call the generated
query is empty and `run` fails fast with zero executions. -/
theorem c6_witness :
    run quietOracle "max spend" 3 =
      ⟨.ok (.error generationFailMessage none
          (vGet (validate_query quietOracle.valLLM quietOracle.loads
            "max spend") "suggestions" (.arr []))),
        [], []⟩ :=
  c6_empty_generation_terminal quietOracle "max spend" 3 "" rfl rfl rfl

/-- C7.  Whenever the validation completion call raises (or returns a
non-string), or its cleaned response has no brace-delimited slice, or the
slice does not parse as a JSON object, `validate_query` returns exactly
the fail-open default: clear, confidence 0.7, empty issues, suggestions
and clarifying questions, and `interpreted_as` equal to the verbatim user
query.  Being total, `validate_query` never propagates the failure. -/
theorem c7_validation_fail_open (llm : LLMResp)
    (loads : String → Except String Json) (q : String)
    (h : validationUnparseable llm loads) :
    validate_query llm loads q = validationDefault q := by
  cases llm with
  | exn e => rfl
  | other v => rfl
  | str s =>
      simp only [validate_query]
      simp only [validationUnparseable] at h
      cases hf1 : firstIdx lbrace (cleanedResponse s).data with
      | none => simp [hf1]
      | some start =>
          cases hf2 : lastIdx rbrace (cleanedResponse s).data with
          | none => simp [hf1, hf2]
          | some stop =>
              rw [hf1, hf2] at h
              obtain ⟨e, he⟩ := h
              simp [hf1, hf2, he]

/-- C7 witness: a raising validation completion call yields exactly the
fail-open default for a concrete query. -/
theorem c7_witness :
    validate_query (.exn "timeout") (fun _ => .error "parse error")
      "show spend" = validationDefault "show spend" :=
  c7_validation_fail_open (.exn "timeout") (fun _ => .error "parse error")
    "show spend" trivial

/-- C9 counterexample: an exception raised by the schema-context provider
(the `schema_mapper.get_relevant_schema_context` call inside `get_sql`,
which no handler guards) escapes `run` unchanged — no response envelope is
produced. -/
theorem c9_counterexample :
    run demoSchemaCrashOracle "spend" 3 =
      ⟨.error "schema provider crashed", [], []⟩ ∧
    statusOf (run demoSchemaCrashOracle "spend" 3).res =
      "uncaught_exception" :=
  ⟨rfl, rfl⟩

/-- C9, amended: exceptions from the completion service and the backing
store never escape `run` — for every behaviour of those collaborators, if
the schema-context provider returns normally and the clarification guard
comparison is well-typed, `run` returns a response envelope.  (A
schema-context-provider exception, by contrast, propagates.) -/
theorem c9_envelope_unless_schema_raises (o : Oracle) (ui : String) (rl : ℕ)
    (ctx : String) (b : Bool)
    (hschema : o.schemaCtx = .ok ctx)
    (hclar : clarGuard (validate_query o.valLLM o.loads ui) = .ok b) :
    ∃ env, (run o ui rl).res = .ok env := by
  cases b with
  | true =>
      have hres : (run o ui rl).res =
          .ok (.clarification clarificationMessage
            (vGet (validate_query o.valLLM o.loads ui) "interpreted_as"
              (.str ""))
            (vGet (validate_query o.valLLM o.loads ui) "issues" (.arr []))
            (vGet (validate_query o.valLLM o.loads ui) "clarifying_questions"
              (.arr []))
            (vGet (validate_query o.valLLM o.loads ui) "suggestions"
              (.arr []))) := by
        simp [run, hclar]
      exact ⟨_, hres⟩
  | false =>
      by_cases hq : pyTruthy (llm_sql_gen o.genLLM o.loads).1
      · have hrun : (run o ui rl).res =
            (runLoop o ui (validate_query o.valLLM o.loads ui)
              (llm_sql_gen o.genLLM o.loads).2.1
              (llm_sql_gen o.genLLM o.loads).2.2 rl
              (llm_sql_gen o.genLLM o.loads).1 rl 0 "").res := by
          simp [run, hclar, hschema, hq]
        rcases runLoop_status o ui (validate_query o.valLLM o.loads ui)
            (llm_sql_gen o.genLLM o.loads).2.1
            (llm_sql_gen o.genLLM o.loads).2.2 rl rl
            (llm_sql_gen o.genLLM o.loads).1 0 "" with h | h
        all_goals
          rw [← hrun] at h
          cases hres : (run o ui rl).res with
          | ok env => exact ⟨env, rfl⟩
          | error e =>
              rw [hres] at h
              simp [statusOf] at h
      · have hres : (run o ui rl).res =
            .ok (.error generationFailMessage none
              (vGet (validate_query o.valLLM o.loads ui) "suggestions"
                (.arr []))) := by
          simp [run, hclar, hschema, hq]
        exact ⟨_, hres⟩

/-- C9 witness: with a well-behaved schema-context provider and raising
completion/store collaborators, `run` returns an envelope. -/
theorem c9_witness :
    ∃ env, (run quietOracle "spend" 3).res = .ok env :=
  c9_envelope_unless_schema_raises quietOracle "spend" 3 "" false rfl rfl

/-- Helper: a loop entered with positive budget records at least one
execution. -/
theorem runLoop_execs_ne_nil (o : Oracle) (ui : String)
    (v : List (String × Json)) (expl chart : Json) (rl : ℕ)
    (fuel : ℕ) (sql : Json) (idx : ℕ) (lastErr : String) (h : 0 < fuel) :
    (runLoop o ui v expl chart rl sql fuel idx lastErr).execs ≠ [] := by
  cases fuel with
  | zero => omega
  | succ n =>
      cases hE : execute_query (o.db idx) sql with
      | ok r => simp [runLoop, hE]
      | error e => simp [runLoop, hE]

/-- Helper: the last recorded error ignores a prepended execution when the
tail is non-empty. -/
theorem lastErrOf_cons (p : Json × Except String (Option String))
    (l : List (Json × Except String (Option String))) (h : l ≠ []) :
    lastErrOf (p :: l) = lastErrOf l := by
  cases l with
  | nil => exact absurd rfl h
  | cons a t => unfold lastErrOf; rw [List.getLast?_cons_cons]

/-- Helper: the last recorded query ignores a prepended execution when the
tail is non-empty. -/
theorem lastSqlOf_cons (p : Json × Except String (Option String))
    (l : List (Json × Except String (Option String))) (h : l ≠ []) :
    lastSqlOf (p :: l) = lastSqlOf l := by
  cases l with
  | nil => exact absurd rfl h
  | cons a t => unfold lastSqlOf; rw [List.getLast?_cons_cons]

/-- Helper: if every execution the loop records fails, the loop exhausts
its budget and returns the terminal error envelope: the message embeds the
last error, `last_sql` is the output of the final repair call (applied to
the last failing query and its error), and the suggestions fall back to
the three default hints only through the `dict.get` default. -/
theorem runLoop_all_fail (o : Oracle) (ui : String) (v : List (String × Json))
    (expl chart : Json) (rl : ℕ) :
    ∀ (fuel : ℕ) (sql : Json) (idx : ℕ) (lastErr : String),
      0 < fuel →
      (∀ p ∈ (runLoop o ui v expl chart rl sql fuel idx lastErr).execs,
        isFailedExec p.2 = true) →
      (runLoop o ui v expl chart rl sql fuel idx lastErr).res =
        .ok (.error
          (errMessage rl
            (lastErrOf (runLoop o ui v expl chart rl sql fuel idx
              lastErr).execs))
          (some (fix_sql (o.fixLLM (idx + fuel - 1)) o.loads
            (lastSqlOf (runLoop o ui v expl chart rl sql fuel idx
              lastErr).execs)
            expl
            (lastErrOf (runLoop o ui v expl chart rl sql fuel idx
              lastErr).execs)))
          (vGet v "suggestions" (.arr defaultHints))) := by
  intro fuel
  induction fuel with
  | zero => intro sql idx lastErr h; omega
  | succ n ih =>
      intro sql idx lastErr _ hall
      cases hE : execute_query (o.db idx) sql with
      | ok r =>
          exfalso
          have hmem : (sql, Except.ok r) ∈
              (runLoop o ui v expl chart rl sql (n + 1) idx lastErr).execs := by
            simp [runLoop, hE]
          have := hall _ hmem
          simp [isFailedExec] at this
      | error e =>
          cases n with
          | zero =>
              simp [runLoop, hE, lastErrOf, lastSqlOf]
          | succ m =>
              have hne : (runLoop o ui v expl chart rl
                  (fix_sql (o.fixLLM idx) o.loads sql expl e) (m + 1)
                  (idx + 1) e).execs ≠ [] :=
                runLoop_execs_ne_nil o ui v expl chart rl (m + 1) _ (idx + 1) e
                  (Nat.succ_pos m)
              have hallIn : ∀ p ∈ (runLoop o ui v expl chart rl
                  (fix_sql (o.fixLLM idx) o.loads sql expl e) (m + 1)
                  (idx + 1) e).execs, isFailedExec p.2 = true := by
                intro p hp
                apply hall
                simp only [runLoop, hE, List.mem_cons]
                exact Or.inr hp
              have hin := ih (fix_sql (o.fixLLM idx) o.loads sql expl e)
                (idx + 1) e (Nat.succ_pos m) hallIn
              have hres : (runLoop o ui v expl chart rl sql (m + 1 + 1) idx
                  lastErr).res =
                  (runLoop o ui v expl chart rl
                    (fix_sql (o.fixLLM idx) o.loads sql expl e) (m + 1)
                    (idx + 1) e).res := by
                simp [runLoop, hE]
              have hexecs : (runLoop o ui v expl chart rl sql (m + 1 + 1) idx
                  lastErr).execs =
                  (sql, Except.error e) ::
                    (runLoop o ui v expl chart rl
                      (fix_sql (o.fixLLM idx) o.loads sql expl e) (m + 1)
                      (idx + 1) e).execs := by
                simp [runLoop, hE]
              rw [hres, hexecs, lastErrOf_cons _ _ hne, lastSqlOf_cons _ _ hne,
                hin]
              rw [show idx + 1 + (m + 1) - 1 = idx + (m + 1 + 1) - 1 from by
                omega]

/-- C5 counterexample: the validator fail-open default carries an explicit
empty `suggestions` list, so after all three executions fail the terminal
error envelope has `suggestions = []`, not the three generic hints — the
validator produced no suggestions, yet the defaults are not used (they are
only the `dict.get` default for a missing key). -/
theorem c5_counterexample :
    run demoAllFailOracle "spend" 3 =
      ⟨.ok (.error (errMessage 3 "db rejected the query")
          (some (.str "SELECT 1")) (.arr [])),
        [(.str "SELECT 1", .error "db rejected the query"),
         (.str "SELECT 1", .error "db rejected the query"),
         (.str "SELECT 1", .error "db rejected the query")],
        [(.str "SELECT 1", "db rejected the query"),
         (.str "SELECT 1", "db rejected the query"),
         (.str "SELECT 1", "db rejected the query")]⟩ ∧
    vGet (validate_query demoAllFailOracle.valLLM demoAllFailOracle.loads
      "spend") "suggestions" .null = .arr [] ∧
    Json.arr [] ≠ Json.arr defaultHints :=
  ⟨rfl, rfl, by simp [defaultHints]⟩

/-- C5, amended: when the pipeline reaches the loop and every recorded
execution fails, `run` returns `status = error` whose message is the fixed
text followed by the last error truncated to at most 200 characters, whose
`last_sql` is the final repair output, and whose `suggestions` are the
validator value when the `suggestions` key is present (even when empty)
and the three generic hints only when the key is absent. -/
theorem c5_exhausted_budget_envelope (o : Oracle) (ui : String) (rl : ℕ)
    (ctx : String)
    (h0 : 0 < rl)
    (hclar : clarGuard (validate_query o.valLLM o.loads ui) = .ok false)
    (hschema : o.schemaCtx = .ok ctx)
    (hsql : pyTruthy (llm_sql_gen o.genLLM o.loads).1 = true)
    (hfail : ∀ p ∈ (run o ui rl).execs, isFailedExec p.2 = true) :
    (run o ui rl).res =
      .ok (.error
        (errPrefix rl ++ strTake (lastErrOf (run o ui rl).execs) 200)
        (some (fix_sql (o.fixLLM (rl - 1)) o.loads
          (lastSqlOf (run o ui rl).execs)
          (llm_sql_gen o.genLLM o.loads).2.1
          (lastErrOf (run o ui rl).execs)))
        (vGet (validate_query o.valLLM o.loads ui) "suggestions"
          (.arr defaultHints))) := by
  have hrun : run o ui rl = runLoop o ui (validate_query o.valLLM o.loads ui)
      (llm_sql_gen o.genLLM o.loads).2.1 (llm_sql_gen o.genLLM o.loads).2.2 rl
      (llm_sql_gen o.genLLM o.loads).1 rl 0 "" := by
    simp [run, hclar, hschema, hsql]
  rw [hrun] at hfail ⊢
  have hmain := runLoop_all_fail o ui (validate_query o.valLLM o.loads ui)
    (llm_sql_gen o.genLLM o.loads).2.1 (llm_sql_gen o.genLLM o.loads).2.2 rl rl
    (llm_sql_gen o.genLLM o.loads).1 0 "" h0 hfail
  rw [hmain]
  simp [errMessage]

/-- C5 witness: with a failing validator (fail-open default) and a store
rejecting all three attempts, the terminal envelope matches the amended
description. -/
theorem c5_witness :
    (run demoAllFailOracle "spend" 3).res =
      .ok (.error
        (errPrefix 3 ++
          strTake (lastErrOf (run demoAllFailOracle "spend" 3).execs) 200)
        (some (fix_sql (demoAllFailOracle.fixLLM 2) demoAllFailOracle.loads
          (lastSqlOf (run demoAllFailOracle "spend" 3).execs)
          (llm_sql_gen demoAllFailOracle.genLLM demoAllFailOracle.loads).2.1
          (lastErrOf (run demoAllFailOracle "spend" 3).execs)))
        (vGet (validate_query demoAllFailOracle.valLLM demoAllFailOracle.loads
          "spend") "suggestions" (.arr defaultHints))) :=
  c5_exhausted_budget_envelope demoAllFailOracle "spend" 3 "" (by decide)
    rfl rfl rfl (by decide)
